import Mathlib

/-!
Verification of the Mesh-Maker media-generation pipeline
(`src/services/geminiService.ts`, here `part_001`, plus the aspect-ratio
normalization in `src/App.tsx`).  The TypeScript request-building and
response-unwrapping code is embedded shallowly: template literals become
Lean string concatenation, request bodies become structures, the
candidate/part search becomes a recursive function, and the video polling
loop becomes a fuel-indexed step function on a scripted sequence of
operation observations.
-/

namespace MeshMaker

/-- The fixed aesthetic ruleset (`SYSTEM_PROMPT_REQUIREMENTS` in
`geminiService.ts`), a template literal opening and closing with a
newline. -/
def SYSTEM_PROMPT_REQUIREMENTS : String :=
  "\nCORE AESTHETIC REQUIREMENTS:\n1. Geometric Wireframe Mesh: Depict the object solely as a wireframe mesh. NO solid surfaces, shading, textures, or photorealistic elements. Show the underlying geometric structure.\n2. Color Palette: Use strictly Cyan (#00FFFF), Magenta (#FF00FF), and Electric Yellow/Amber (#FFFF00). No other colors.\n3. Retro-Futuristic Style: Evoke classic CAD software from the 80s/90s, sharp and clean technical blueprint look.\n4. Background: Pure black (#000000) only.\n5. No Interface Elements: Do NOT include any CAD UI, text, coordinates, or frames. Just the object.\n"

/-- The hint text pushed ahead of the reference image in
`generateWireframeImage` when a reference image is supplied. -/
def REFERENCE_HINT_TEXT : String :=
  "[STRUCTURAL REFERENCE ONLY]: Use the attached image as a minor hint for silhouette, scale, or general form factor only. DO NOT trace or directly edit this image. Prioritize the text specification for all details."

/-- The fixed orbit prompt of `generateRotatingVideo`. -/
def VIDEO_PROMPT : String :=
  "A smooth 360-degree cinematic rotation of this 3D wireframe mesh object. The camera orbits the object. Smooth motion. SILENT VIDEO, NO AUDIO TRACK."

/-- `GenerationConfig` from `types.ts`.  The TypeScript union types are
modelled as strings; the concrete values of interest appear in the
theorems. -/
structure GenerationConfig where
  aspectRatio : String
  model : String
  quality : String
deriving DecidableEq, Repr

/-- `base64Image.split(',')[1] || base64Image`: take the second
comma-separated field; when it is missing or empty (JavaScript falsy),
fall back to the whole input. -/
def extractBase64Data (s : String) : String :=
  match (s.splitOn ",").get? 1 with
  | some t => if t = "" then s else t
  | none => s

/-- A content part of a model request: either text or inline binary data
with a MIME type. -/
inductive Part where
  | text (s : String)
  | inlineData (data : String) (mimeType : String)
deriving DecidableEq, Repr

/-- The `mainInstruction` template literal of `generateWireframeImage`. -/
def mainInstruction (prompt : String) : String :=
  "\n    INSTRUCTION: Create a brand new 3D wireframe mesh schematic of the following object: \"" ++
    prompt ++
    "\".\n    THE TEXT DESCRIPTION ABOVE IS THE PRIMARY SPECIFICATION.\n    The final output must be a unique geometric vector-style rendering.\n    " ++
    SYSTEM_PROMPT_REQUIREMENTS ++ "\n  "

/-- The ordered `parts` array built by `generateWireframeImage`: with a
reference image, the hint text and the image bytes come first; the main
instruction is always pushed last. -/
def generateParts (prompt : String) (referenceImageBase64 : Option String) : List Part :=
  match referenceImageBase64 with
  | some ref =>
      [Part.text REFERENCE_HINT_TEXT,
       Part.inlineData (extractBase64Data ref) "image/png",
       Part.text (mainInstruction prompt)]
  | none => [Part.text (mainInstruction prompt)]

/-- The key-value fields of the outgoing `imageConfig` object.  The
conditional spread `...(config.model === 'gemini-3-pro-image-preview' ?
{ imageSize: config.quality } : {})` adds the `imageSize` key only for
the supporting model tier; otherwise the key is structurally absent. -/
def imageConfigFields (config : GenerationConfig) : List (String × String) :=
  [("aspectRatio", config.aspectRatio)] ++
    (if config.model = "gemini-3-pro-image-preview"
     then [("imageSize", config.quality)] else [])

/-- An outgoing `generateContent` request: model name, ordered content
parts, and the optional `config.imageConfig` object (as its key-value
field list, `none` when the call passes no config at all). -/
structure GenerateContentRequest where
  model : String
  parts : List Part
  imageConfig : Option (List (String × String))
deriving DecidableEq, Repr

/-- The request built by `generateWireframeImage`. -/
def generateImageRequest (prompt : String) (config : GenerationConfig)
    (referenceImageBase64 : Option String) : GenerateContentRequest :=
  { model := config.model,
    parts := generateParts prompt referenceImageBase64,
    imageConfig := some (imageConfigFields config) }

/-- The `finalPrompt` template literal of `editWireframeImage`. -/
def editFinalPrompt (instruction : String) : String :=
  "Apply this modification to the existing wireframe schematic: " ++
    instruction ++ ". Maintain mesh aesthetic. " ++ SYSTEM_PROMPT_REQUIREMENTS

/-- The request built by `editWireframeImage`: fixed model, the source
image bytes then the edit prompt, and no config object.  The
caller-supplied configuration is received but never read. -/
def editImageRequest (base64Image instruction : String)
    (_config : GenerationConfig) : GenerateContentRequest :=
  { model := "gemini-2.5-flash-image",
    parts := [Part.inlineData (extractBase64Data base64Image) "image/png",
              Part.text (editFinalPrompt instruction)],
    imageConfig := none }

/-- Inline binary payload of a response part. -/
structure InlineData where
  data : String
  mimeType : String
deriving DecidableEq, Repr

/-- One content part of a response candidate; `inlineData` is `none` for
text-only parts (JavaScript falsy field). -/
structure ResponsePart where
  text : Option String
  inlineData : Option InlineData
deriving DecidableEq, Repr

/-- One response candidate with its `content.parts` list (an absent list
is the empty list, as in `candidates[0].content.parts || []`). -/
structure Candidate where
  parts : List ResponsePart
deriving DecidableEq, Repr

/-- A `generateContent` response (an absent candidate list is the empty
list, as in `response.candidates || []`). -/
structure GenResponse where
  candidates : List Candidate
deriving DecidableEq, Repr

/-- Failure taxonomy of the image unwrap: zero candidates, or a candidate
whose parts carry no inline image data. -/
inductive GenError where
  | NoCandidates
  | NoImageData
deriving DecidableEq, Repr

/-- The `for (const part of ...) if (part.inlineData) return ...` search:
data of the first part bearing inline data, if any. -/
def findInlinePart : List ResponsePart → Option String
  | [] => none
  | p :: ps =>
      match p.inlineData with
      | some d => some d.data
      | none => findInlinePart ps

/-- Wrap inline base64 bytes as a data URI, as in
`return (data:image/png;base64, + part.inlineData.data)`. -/
def dataUriOfBase64 (b : String) : String :=
  "data:image/png;base64," ++ b

/-- Unwrap a `generateContent` response exactly as both
`generateWireframeImage` (lines 68-76) and `editWireframeImage`
(lines 110-118) do: throw on an empty candidate list, search the first
candidate's parts for inline data, wrap the first hit as a data URI,
throw when none is found.  Later candidates and later parts are never
inspected. -/
def unwrapImageResponse (r : GenResponse) : Except GenError String :=
  match r.candidates with
  | [] => Except.error GenError.NoCandidates
  | c :: _ =>
      match findInlinePart c.parts with
      | some d => Except.ok (dataUriOfBase64 d)
      | none => Except.error GenError.NoImageData

/-- A video operation handle observation: its `done` flag and the download
URI extracted from `operation.response?.generatedVideos?.[0]?.video?.uri`
(collapsed optional chain). -/
structure VideoOperation where
  done : Bool
  downloadUri : Option String
deriving DecidableEq, Repr

/-- An observable step of the polling loop: a timer suspension of `ms`
milliseconds, or a status re-fetch via `getVideosOperation`. -/
inductive PollEvent where
  | sleep (ms : Nat)
  | refetch
deriving DecidableEq, Repr, BEq

/-- The `while (!operation.done)` loop of `generateRotatingVideo`, run
against a scripted sequence of observations: `ops i` is the `i`-th
operation value seen by the loop (`ops 0` the initial one, `ops (i+1)`
the result of the `(i+1)`-th re-fetch).  Each iteration suspends for
10000 ms, then re-fetches.  `fuel` bounds the number of iterations the
finite approximation may take; `none` means the loop has not terminated
within `fuel` iterations. -/
def pollEvents (ops : Nat → VideoOperation) : Nat → Nat → Option (List PollEvent)
  | 0, i => if (ops i).done then some [] else none
  | f + 1, i =>
      if (ops i).done then some []
      else
        match pollEvents ops f (i + 1) with
        | some evs => some (PollEvent.sleep 10000 :: PollEvent.refetch :: evs)
        | none => none

/-- URL construction for the final video download:
`downloadLink.includes('?') ? link&key=apiKey : link?key=apiKey`.  The
character-containment test is expressed on the underlying character
list. -/
def buildVideoFetchUrl (downloadLink apiKey : String) : String :=
  if downloadLink.data.contains '?' then downloadLink ++ "&key=" ++ apiKey
  else downloadLink ++ "?key=" ++ apiKey

/-- JavaScript `Response.ok`: status in the inclusive-exclusive range
[200, 300). -/
def responseOk (status : Nat) : Bool :=
  decide (200 ≤ status) && decide (status < 300)

/-- A fetch response: HTTP status and body bytes. -/
structure FetchResponse where
  status : Nat
  body : List Nat
deriving DecidableEq, Repr

/-- Failure taxonomy of the video tail: missing download URI, or a
download fetch with an unsuccessful status. -/
inductive VideoError where
  | NoUriReturned
  | DownloadFailed (status : Nat)
deriving DecidableEq, Repr

/-- The download tail of `generateRotatingVideo`: build the credentialed
URL, fetch it, throw on a non-ok status, otherwise return the body bytes
(the blob handed to `URL.createObjectURL`).  `fetch` scripts the network. -/
def materializeVideo (downloadLink apiKey : String)
    (fetch : String → FetchResponse) : Except VideoError (List Nat) :=
  let r := fetch (buildVideoFetchUrl downloadLink apiKey)
  if responseOk r.status then Except.ok r.body
  else Except.error (VideoError.DownloadFailed r.status)

/-- The `generateVideos` request built by `generateRotatingVideo`. -/
structure GenerateVideosRequest where
  model : String
  prompt : String
  imageBytes : String
  mimeType : String
  numberOfVideos : Nat
  resolution : String
  aspectRatio : String
deriving DecidableEq, Repr

/-- The request body of `generateRotatingVideo` for a given source image
and aspect ratio. -/
def videoRequest (base64Image : String) (aspectRatio : String) :
    GenerateVideosRequest :=
  { model := "veo-3.1-fast-generate-preview",
    prompt := VIDEO_PROMPT,
    imageBytes := extractBase64Data base64Image,
    mimeType := "image/png",
    numberOfVideos := 1,
    resolution := "720p",
    aspectRatio := aspectRatio }

/-- The aspect-ratio normalization in `App.tsx` `handleRotate3D`:
`(config.aspectRatio === '9:16') ? '9:16' : '16:9'`. -/
def normalizeVeoAspect (ar : String) : String :=
  if ar = "9:16" then "9:16" else "16:9"

/-- The video request as actually issued from `handleRotate3D`: the image
URL together with the normalized aspect ratio. -/
def rotateVideoRequest (config : GenerationConfig) (imageUrl : String) :
    GenerateVideosRequest :=
  videoRequest imageUrl (normalizeVeoAspect config.aspectRatio)

/-- `materializeImage`: the synchronous wrap of inline base64 bytes into
a displayable data URI (spec §4.5); this is the same wrap the unwrap path
performs and it is total — it cannot fail. -/
def materializeImage (inlineBase64 : String) : String :=
  dataUriOfBase64 inlineBase64

/-- The fixed scheme-and-media-type header of the produced data URIs. -/
def dataUriScheme : String := "data:image/png;base64,"

/-- The base64 portion of a data URI: everything after the fixed
22-character header. -/
def base64Portion (s : String) : String :=
  String.mk (s.data.drop dataUriScheme.data.length)

/-- Substring containment, witnessed by a decomposition. -/
def containsStr (s t : String) : Prop :=
  ∃ a b : String, s = a ++ t ++ b

/-- `composePrompt` for the create operation with no reference image, as
the spec words it (`Modelled from the spec:` the Prompt Composer rule
"Create, no reference"); kept for comparison against the source's
`mainInstruction`. -/
def specCreatePrompt (userText : String) : String :=
  "Generate a stylized CAD wireframe rendering of: " ++ userText ++ ". " ++
    SYSTEM_PROMPT_REQUIREMENTS

/-- `composePrompt` for the edit operation, as the spec words it
(`Modelled from the spec:` the Prompt Composer rule "Edit"); kept for
comparison against the source's `editFinalPrompt`. -/
def specEditPrompt (userText : String) : String :=
  "Apply this modification to the wireframe schematic: " ++ userText ++
    ". Maintain mesh aesthetic. " ++ SYSTEM_PROMPT_REQUIREMENTS

/-! Helper lemmas. -/

/-- A string contains any of its append components. -/
theorem containsStr_of_append (a t b : String) : containsStr (a ++ t ++ b) t :=
  ⟨a, b, rfl⟩

/-- `findInlinePart` is the library first-hit search over the parts:
it returns the payload of the first part whose `inlineData` is present. -/
theorem findInlinePart_eq_findSome (ps : List ResponsePart) :
    findInlinePart ps = ps.findSome? (fun p => p.inlineData.map InlineData.data) := by
  induction ps with
  | nil => rfl
  | cons p ps ih =>
      cases h : p.inlineData with
      | none => simp [findInlinePart, List.findSome?_cons, h, ih]
      | some d => simp [findInlinePart, List.findSome?_cons, h]

/-- The scripted polling loop resolves after exactly `n` iterations when
the first `n` observations are not done and observation `n` is done,
producing `n` sleep/refetch pairs, for any sufficient fuel. -/
theorem pollEvents_of_scripted (ops : Nat → VideoOperation) :
    ∀ (n i fuel : Nat), n ≤ fuel →
      (∀ k, k < n → (ops (i + k)).done = false) →
      (ops (i + n)).done = true →
      pollEvents ops fuel i =
        some (List.replicate n [PollEvent.sleep 10000, PollEvent.refetch]).flatten := by
  intro n
  induction n with
  | zero =>
      intro i fuel _ _ ht
      have h0 : (ops i).done = true := by simpa using ht
      cases fuel <;> simp [pollEvents, h0]
  | succ n ih =>
      intro i fuel hfuel hf ht
      have h0 : (ops i).done = false := by simpa using hf 0 (Nat.succ_pos n)
      match fuel, hfuel with
      | f + 1, hfuel =>
          have hrec := ih (i + 1) f (Nat.le_of_succ_le_succ hfuel)
            (fun k hk => by
              have e : i + 1 + k = i + (k + 1) := by omega
              rw [e]
              exact hf (k + 1) (Nat.succ_lt_succ hk))
            (by
              have e : i + 1 + n = i + (n + 1) := by omega
              rw [e]
              exact ht)
          simp [pollEvents, h0, hrec, List.replicate_succ]

/-- The resolved trace carries exactly `n` re-fetch events. -/
theorem pollTrace_refetch_count (n : Nat) :
    ((List.replicate n [PollEvent.sleep 10000, PollEvent.refetch]).flatten).count
        PollEvent.refetch = n := by
  induction n with
  | zero => rfl
  | succ n ih =>
      simp [List.replicate_succ, List.count_cons, ih,
        show (PollEvent.refetch == PollEvent.refetch) = true from rfl,
        show (PollEvent.sleep 10000 == PollEvent.refetch) = false from rfl]

/-! Claim theorems. -/

/-- Claim C1: the image create and edit responses are unwrapped by
inspecting only the first candidate: zero candidates fail with
`NoCandidates`; a first candidate with no inline-data part fails with
`NoImageData`; otherwise the single returned artifact is the first
inline-data-bearing part of the first candidate wrapped as a
`data:image/png;base64,` reference, independent of all remaining
candidates, which are discarded. -/
theorem image_unwrap_first_inline_part (r : GenResponse) :
    (r.candidates = [] → unwrapImageResponse r = Except.error GenError.NoCandidates) ∧
    (∀ c rest, r.candidates = c :: rest → findInlinePart c.parts = none →
      unwrapImageResponse r = Except.error GenError.NoImageData) ∧
    (∀ c rest d, r.candidates = c :: rest →
      c.parts.findSome? (fun p => p.inlineData.map InlineData.data) = some d →
      unwrapImageResponse r = Except.ok (dataUriOfBase64 d)) := by
  refine ⟨?_, ?_, ?_⟩
  · intro h
    simp [unwrapImageResponse, h]
  · intro c rest h hn
    simp [unwrapImageResponse, h, hn]
  · intro c rest d h hf
    have hd : findInlinePart c.parts = some d := by
      rw [findInlinePart_eq_findSome]
      exact hf
    simp [unwrapImageResponse, h, hd]

/-- Witness for C1: a response with one candidate whose second part is
the first inline-data part yields exactly that part's payload as a data
URI. -/
theorem image_unwrap_first_inline_part_w :
    unwrapImageResponse
        ⟨[⟨[⟨some "t", none⟩, ⟨none, some ⟨"QUJD", "image/png"⟩⟩]⟩]⟩ =
      Except.ok (dataUriOfBase64 "QUJD") :=
  (image_unwrap_first_inline_part
      ⟨[⟨[⟨some "t", none⟩, ⟨none, some ⟨"QUJD", "image/png"⟩⟩]⟩]⟩).2.2
    ⟨[⟨some "t", none⟩, ⟨none, some ⟨"QUJD", "image/png"⟩⟩]⟩ [] "QUJD" rfl (by decide)

/-- Claim C2: when the scripted operation observations are not done for
exactly `n` observations and then done, the polling loop performs exactly
`n` re-fetches, each preceded by a 10000 ms suspension, and then
resolves (for any fuel bound of at least `n`, so the loop terminates
whenever `done` eventually becomes true). -/
theorem poller_exact_refetches_and_terminates (ops : Nat → VideoOperation)
    (n fuel : Nat) (hfuel : n ≤ fuel)
    (hfalse : ∀ k, k < n → (ops k).done = false)
    (htrue : (ops n).done = true) :
    pollEvents ops fuel 0 =
      some (List.replicate n [PollEvent.sleep 10000, PollEvent.refetch]).flatten ∧
    ((List.replicate n [PollEvent.sleep 10000, PollEvent.refetch]).flatten).count
        PollEvent.refetch = n := by
  refine ⟨?_, pollTrace_refetch_count n⟩
  exact pollEvents_of_scripted ops n 0 fuel hfuel
    (fun k hk => by simpa using hfalse k hk) (by simpa using htrue)

/-- Witness for C2: a handle that is done from the third observation on
is polled with exactly two sleep/refetch pairs. -/
theorem poller_exact_refetches_and_terminates_w :
    pollEvents (fun k => ⟨decide (2 ≤ k), none⟩) 5 0 =
      some (List.replicate 2 [PollEvent.sleep 10000, PollEvent.refetch]).flatten :=
  (poller_exact_refetches_and_terminates (fun k => ⟨decide (2 ≤ k), none⟩) 2 5
    (by decide)
    (fun k hk => by
      match k with
      | 0 => rfl
      | 1 => rfl
      | m + 2 => exact absurd hk (by omega))
    (by decide)).1

/-- Claim C3: the download URL appends the credential with `&key=` when
the URI already contains a `?` and with `?key=` otherwise; the download
fails with `DownloadFailed` exactly when the response status is not
successful; and the spec's concrete scenario holds. -/
theorem video_download_url_spec (u k : String) (fetch : String → FetchResponse) :
    (u.data.contains '?' = true → buildVideoFetchUrl u k = u ++ "&key=" ++ k) ∧
    (u.data.contains '?' = false → buildVideoFetchUrl u k = u ++ "?key=" ++ k) ∧
    (materializeVideo u k fetch =
        Except.error (VideoError.DownloadFailed (fetch (buildVideoFetchUrl u k)).status) ↔
      responseOk (fetch (buildVideoFetchUrl u k)).status = false) ∧
    buildVideoFetchUrl "https://host/video?token=abc" "K" =
      "https://host/video?token=abc&key=K" := by
  refine ⟨?_, ?_, ?_, by decide⟩
  · intro h
    unfold buildVideoFetchUrl
    rw [if_pos h]
  · intro h
    unfold buildVideoFetchUrl
    rw [if_neg (by simpa using h)]
  · unfold materializeVideo
    cases hok : responseOk (fetch (buildVideoFetchUrl u k)).status <;> simp [hok]

/-- Witness for C3: a 404 on the spec's scenario URL fails with
`DownloadFailed`. -/
theorem video_download_url_spec_w :
    materializeVideo "https://host/video?token=abc" "K" (fun _ => ⟨404, []⟩) =
      Except.error (VideoError.DownloadFailed 404) :=
  ((video_download_url_spec "https://host/video?token=abc" "K"
      (fun _ => ⟨404, []⟩)).2.2.1).mpr (by decide)

/-- Claim C4: for any model other than the supporting tier the outgoing
image configuration is structurally equal to one with no quality-size
key at all, and no `imageSize` binding occurs in it; for the supporting
tier the key is present with the configured quality. -/
theorem quality_field_structurally_omitted (config : GenerationConfig)
    (prompt : String) (ref : Option String) :
    (config.model ≠ "gemini-3-pro-image-preview" →
      imageConfigFields config = [("aspectRatio", config.aspectRatio)] ∧
      ∀ v, ("imageSize", v) ∉ imageConfigFields config) ∧
    (config.model = "gemini-3-pro-image-preview" →
      imageConfigFields config =
        [("aspectRatio", config.aspectRatio), ("imageSize", config.quality)]) ∧
    (generateImageRequest prompt config ref).imageConfig =
      some (imageConfigFields config) := by
  refine ⟨?_, ?_, rfl⟩
  · intro h
    refine ⟨by simp [imageConfigFields, h], ?_⟩
    intro v hv
    simp [imageConfigFields, h] at hv
  · intro h
    simp [imageConfigFields, h]

/-- Witness for C4: the non-supporting tier yields only the aspect-ratio
field, the supporting tier also carries the quality. -/
theorem quality_field_structurally_omitted_w :
    imageConfigFields ⟨"1:1", "gemini-2.5-flash-image", "1K"⟩ =
      [("aspectRatio", "1:1")] ∧
    imageConfigFields ⟨"1:1", "gemini-3-pro-image-preview", "2K"⟩ =
      [("aspectRatio", "1:1"), ("imageSize", "2K")] :=
  ⟨((quality_field_structurally_omitted ⟨"1:1", "gemini-2.5-flash-image", "1K"⟩
      "p" none).1 (by decide)).1,
   (quality_field_structurally_omitted ⟨"1:1", "gemini-3-pro-image-preview", "2K"⟩
      "p" none).2.1 rfl⟩

/-- Claim C5: the aspect ratio issued to the video model from
`handleRotate3D` is always `16:9` or `9:16`: `9:16` passes through and
every other configured value (including `1:1`, `3:4`, `4:3`) is
normalized to `16:9`. -/
theorem video_aspect_ratio_normalized (config : GenerationConfig) (imageUrl : String) :
    ((rotateVideoRequest config imageUrl).aspectRatio = "16:9" ∨
      (rotateVideoRequest config imageUrl).aspectRatio = "9:16") ∧
    (config.aspectRatio = "9:16" →
      (rotateVideoRequest config imageUrl).aspectRatio = "9:16") ∧
    (config.aspectRatio ≠ "9:16" →
      (rotateVideoRequest config imageUrl).aspectRatio = "16:9") ∧
    normalizeVeoAspect "1:1" = "16:9" ∧ normalizeVeoAspect "3:4" = "16:9" ∧
    normalizeVeoAspect "4:3" = "16:9" := by
  refine ⟨?_, ?_, ?_, by decide, by decide, by decide⟩
  · by_cases h : config.aspectRatio = "9:16" <;>
      simp [rotateVideoRequest, videoRequest, normalizeVeoAspect, h]
  · intro h
    simp [rotateVideoRequest, videoRequest, normalizeVeoAspect, h]
  · intro h
    simp [rotateVideoRequest, videoRequest, normalizeVeoAspect, h]

/-- Witness for C5: a `1:1` configuration is sent as `16:9`. -/
theorem video_aspect_ratio_normalized_w :
    (rotateVideoRequest ⟨"1:1", "gemini-2.5-flash-image", "1K"⟩ "img").aspectRatio =
      "16:9" :=
  (video_aspect_ratio_normalized ⟨"1:1", "gemini-2.5-flash-image", "1K"⟩
    "img").2.2.1 (by decide)

/-- Claim C8: the instruction text of every video request is one fixed
orbit string, identical across all requests (so independent of any user
text), and it explicitly demands the absence of an audio track. -/
theorem video_prompt_fixed_and_silent (img ar img2 ar2 : String) :
    (videoRequest img ar).prompt =
      "A smooth 360-degree cinematic rotation of this 3D wireframe mesh object. The camera orbits the object. Smooth motion. SILENT VIDEO, NO AUDIO TRACK." ∧
    (videoRequest img ar).prompt = (videoRequest img2 ar2).prompt ∧
    containsStr (videoRequest img ar).prompt "NO AUDIO TRACK" := by
  refine ⟨rfl, rfl,
    ⟨"A smooth 360-degree cinematic rotation of this 3D wireframe mesh object. The camera orbits the object. Smooth motion. SILENT VIDEO, ", ".", ?_⟩⟩
  show VIDEO_PROMPT =
    "A smooth 360-degree cinematic rotation of this 3D wireframe mesh object. The camera orbits the object. Smooth motion. SILENT VIDEO, " ++
      "NO AUDIO TRACK" ++ "."
  decide

/-- Claim C9: wrapping an inline base64 payload as a data URI and taking
the base64 portion back recovers the payload exactly, so any decoder
applied after the round trip yields the same bytes as decoding the
payload directly; the wrap itself is total. -/
theorem materialize_image_roundtrip (b : String) :
    base64Portion (materializeImage b) = b ∧
    ∀ decode : String → Option (List Nat),
      decode (base64Portion (materializeImage b)) = decode b := by
  have h : base64Portion (materializeImage b) = b := by
    cases b with
    | mk l => rfl
  exact ⟨h, fun decode => by rw [h]⟩

/-- Claim C10: the edit request always names the fixed flash model,
carries no config object (hence no aspect-ratio or quality options), and
is identical across different caller-supplied configurations. -/
theorem edit_request_ignores_config (img ins : String) (c c1 c2 : GenerationConfig) :
    (editImageRequest img ins c).model = "gemini-2.5-flash-image" ∧
    (editImageRequest img ins c).imageConfig = none ∧
    editImageRequest img ins c1 = editImageRequest img ins c2 :=
  ⟨rfl, rfl, rfl⟩

/-- Counterexample for C6: at user text `cube`, the create prompt built
by the code (the `mainInstruction` template) is not the string the claim
demands. -/
theorem create_prompt_mismatch_on_cube :
    mainInstruction "cube" ≠ specCreatePrompt "cube" := by
  decide

/-- Claim C6 (amended): with no reference image the single text part is
the `mainInstruction` template, which is exactly the fixed
`INSTRUCTION: Create a brand new 3D wireframe mesh schematic ...`
string around the quoted user text; it contains the user text verbatim
and the full aesthetic ruleset, and is a pure function of the user
text. -/
theorem create_prompt_amended (u : String) :
    generateParts u none = [Part.text (mainInstruction u)] ∧
    mainInstruction u =
      "\n    INSTRUCTION: Create a brand new 3D wireframe mesh schematic of the following object: \"" ++
        u ++
        "\".\n    THE TEXT DESCRIPTION ABOVE IS THE PRIMARY SPECIFICATION.\n    The final output must be a unique geometric vector-style rendering.\n    " ++
        SYSTEM_PROMPT_REQUIREMENTS ++ "\n  " ∧
    containsStr (mainInstruction u) u ∧
    containsStr (mainInstruction u) SYSTEM_PROMPT_REQUIREMENTS := by
  refine ⟨rfl, rfl, ?_, ?_⟩
  · have e : mainInstruction u =
        "\n    INSTRUCTION: Create a brand new 3D wireframe mesh schematic of the following object: \"" ++
          u ++
          ("\".\n    THE TEXT DESCRIPTION ABOVE IS THE PRIMARY SPECIFICATION.\n    The final output must be a unique geometric vector-style rendering.\n    " ++
            (SYSTEM_PROMPT_REQUIREMENTS ++ "\n  ")) := by
      simp [mainInstruction, String.append_assoc]
    rw [e]
    exact containsStr_of_append _ _ _
  · unfold mainInstruction
    exact containsStr_of_append _ _ _

/-- Counterexample for C7: at instruction `add fins`, the edit prompt
built by the code says `the existing wireframe schematic`, not the
claimed `the wireframe schematic`. -/
theorem edit_prompt_mismatch_on_add_fins :
    editFinalPrompt "add fins" ≠ specEditPrompt "add fins" := by
  decide

/-- Claim C7 (amended): the edit request's text part is exactly
`Apply this modification to the existing wireframe schematic:
{userText}. Maintain mesh aesthetic. {AESTHETIC_RULESET}`, containing
the instruction verbatim and the full ruleset. -/
theorem edit_prompt_amended (img ins : String) (config : GenerationConfig) :
    (editImageRequest img ins config).parts =
      [Part.inlineData (extractBase64Data img) "image/png",
       Part.text ("Apply this modification to the existing wireframe schematic: " ++
         ins ++ ". Maintain mesh aesthetic. " ++ SYSTEM_PROMPT_REQUIREMENTS)] ∧
    containsStr (editFinalPrompt ins) ins ∧
    containsStr (editFinalPrompt ins) SYSTEM_PROMPT_REQUIREMENTS := by
  refine ⟨rfl, ?_, ?_⟩
  · have e : editFinalPrompt ins =
        "Apply this modification to the existing wireframe schematic: " ++ ins ++
          (". Maintain mesh aesthetic. " ++ SYSTEM_PROMPT_REQUIREMENTS) := by
      simp [editFinalPrompt, String.append_assoc]
    rw [e]
    exact containsStr_of_append _ _ _
  · have e : editFinalPrompt ins =
        ("Apply this modification to the existing wireframe schematic: " ++ ins ++
          ". Maintain mesh aesthetic. ") ++ SYSTEM_PROMPT_REQUIREMENTS ++ "" := by
      simp [editFinalPrompt]
    rw [e]
    exact containsStr_of_append _ _ _

end MeshMaker
